import Mathlib

/-!
Shallow embedding of the threadslapper RSS watcher:
`src/cogs/RssWatcher.py`, `src/threadslapper/settings.py` and
`src/threadslapper/discordbot.py`.

Python integers are embedded as `Int` (episode numbers) or `Nat`
(non-negative counters), Python strings as `String` with character
indexing (Python string indices and `len` count code points, as
`String.length` and `String.data` do), Python exceptions as
`Except PyErr`, and Python `None`-able values as `Option`.
The external collaborators (the `feedparser` fetch, the `markdownify`
HTML-to-markdown converter and the messaging-platform SDK calls) are
I/O and are passed in as explicit data: a fetch result, a conversion
function, and a channel state, respectively.
-/

set_option autoImplicit false

namespace Threadslapper

/-- Python exception classes observed at the feed-processing boundary. -/
inductive PyErr where
  | typeError
  | indexError
  | valueError
  | runtimeError
  | other
deriving DecidableEq

/-- `ChannelData` (RssWatcher.py lines 23-27). -/
structure ChannelData where
  channel_title : String
  channel_url : String
  channel_image_url : String
  channel_last_published : String
deriving DecidableEq

/-- `EpisodeData` (RssWatcher.py lines 30-36); it extends `ChannelData`
exactly as in the source. -/
structure EpisodeData extends ChannelData where
  number : Int
  title : String
  description : String
  image_url : String
  episode_url : String
  tags : List String
deriving DecidableEq

/-- Python `s.startswith(pre)`: code-point prefix test. -/
def pyStartsWith (s pre : String) : Bool :=
  pre.data.isPrefixOf s.data

/-- Python `s.strip()`: remove leading and trailing whitespace. -/
def pyStrip (s : String) : String :=
  String.mk (((s.data.dropWhile Char.isWhitespace).reverse.dropWhile Char.isWhitespace).reverse)

/-- Python `len(s)`: the number of code points. -/
def pyLen (s : String) : Nat :=
  s.data.length

/-- Python `s[:n]` for `0 ≤ n`: the first `n` code points. -/
def pyTake (s : String) (n : Nat) : String :=
  String.mk (s.data.take n)

/-- `EpisodeData.get_title` (RssWatcher.py lines 54-64). The source
parameter named after the word for a leading string is renamed `pfx`
because that word is a reserved keyword in Lean. -/
def EpisodeData.get_title (e : EpisodeData) (pfx : String) (override_ep_number : Bool) : String :=
  if override_ep_number then pyStrip e.title
  else if pyStartsWith e.title (toString e.number) then pyStrip (pfx ++ " " ++ e.title)
  else pyStrip (pfx ++ " " ++ toString e.number ++ ": " ++ e.title)

/-- True when the character list begins with two newline characters,
i.e. an occurrence of the Python search string made of two
line-breaks starts here. -/
def startsNN : List Char → Bool
  | c :: d :: _ => c == '\n' && d == '\n'
  | _ => false

/-- True when the character list contains two adjacent newline
characters somewhere (the substring Python searches for with
`desc.index`). -/
def hasNN : List Char → Bool
  | [] => false
  | c :: rest => startsNN (c :: rest) || hasNN rest

/-- `desc[:desc.index("\n\n")]` from RssWatcher.py lines 47-48: the
prefix of the list strictly before the first occurrence of two adjacent
newline characters, or `none` when there is no occurrence (in Python,
`str.index` raises `ValueError` then). -/
def cutNN : List Char → Option (List Char)
  | [] => none
  | c :: rest => if startsNN (c :: rest) then some [] else (cutNN rest).map (fun t => c :: t)

/-- `EpisodeData.get_description` (RssWatcher.py lines 38-52). The
external `markdownify` converter `md` is passed in as the function
`mdf`; the result is `none` exactly when the Python code raises
(`str.index` raising `ValueError` when the converted text has no double
line-break and `truncate` is true). -/
def EpisodeData.get_description (e : EpisodeData) (mdf : String → String) (truncate : Bool) : Option String :=
  let desc := mdf e.description
  if truncate then (cutNN desc.data).map (fun l => String.mk l)
  else if pyLen desc > 2000 then some (pyTake desc 1997 ++ "...")
  else some desc

/-- The fields of `RssFeedToChannel` (settings.py lines 59-102) that the
watcher logic reads or writes: the per-feed runtime counters, the
watermark, the behaviour switches and the field-schema key names. -/
structure RssFeedToChannel where
  enabled : Bool
  error_count : Nat
  current_episode : Int
  rss_episode_key : String
  rss_episode_url_key : String
  rss_title_key : String
  rss_description_key : String
  rss_image_key : String
  rss_tag_key : String
  rss_channel_title_key : String
  rss_channel_url_key : String
  rss_channel_image_key : String
  rss_channel_last_published_key : String
  override_episode_numbers : Bool
  rss_feed_is_backwards : Bool
deriving DecidableEq

/-- The Python expression `x or y` for `x : int | None`: `None` and `0`
are falsy, every other integer is truthy. This embeds line 281 of
RssWatcher.py, `episode_number_override or rss.current_episode`. -/
def pyOr (x : Option Int) (y : Int) : Int :=
  match x with
  | none => y
  | some v => if v = 0 then y else v

/-- `RssWatcher.check_rss` (RssWatcher.py lines 276-288). The fetch
`self._get_latest_episode_data(rss)` is I/O, so the fetched and
extracted `latest_episode` is a parameter; the function returns the
optional new-episode snapshot together with the updated feed record
(the source mutates `rss.current_episode` in place). -/
def check_rss (rss : RssFeedToChannel) (episode_number_override : Option Int) (latest_episode : EpisodeData) : Option EpisodeData × RssFeedToChannel :=
  let current_episode := pyOr episode_number_override rss.current_episode
  if latest_episode.number > current_episode then
    (some latest_episode, { rss with current_episode := latest_episode.number })
  else
    (none, rss)

/-- Modelled from the spec: section 4.2 states the rule
baseline = override_watermark if provided else feed.watermark.
This is the comparison value the spec prescribes, to be compared
against the one the code computes with `pyOr`. -/
def specBaseline (override_watermark : Option Int) (watermark : Int) : Int :=
  match override_watermark with
  | some v => v
  | none => watermark

/-- A discord thread as the publish logic observes it: an identity and
the thread name the dedup check compares against. -/
structure ThreadHandle where
  id : Nat
  name : String
deriving DecidableEq

/-- The state of one discord channel relevant to `add_text_thread` and
`add_forum_thread`: its current thread list, plus a counter from which
`create_thread` draws the identity of a newly created thread. -/
structure ChannelState where
  threads : List ThreadHandle
  nextId : Nat
deriving DecidableEq

/-- `RssWatcher.add_text_thread` (RssWatcher.py lines 174-205). The SDK
side effects (sending the lead message, joining, pinning) do not touch
the thread list; `channel.create_thread` appends one thread with the
given name. Returns the optional thread handle and the updated channel
state. -/
def add_text_thread (channel : ChannelState) (title : String) (override_episode_check : Bool) : Option ThreadHandle × ChannelState :=
  if override_episode_check = true ∨ title ∉ channel.threads.map (fun th => th.name) then
    let new_thread : ThreadHandle := { id := channel.nextId, name := title }
    (some new_thread, { threads := channel.threads ++ [new_thread], nextId := channel.nextId + 1 })
  else
    let threads := channel.threads.filter (fun th => th.name = title)
    if threads.length = 1 then (threads.head?, channel)
    else (none, channel)

/-- `RssWatcher.add_forum_thread` (RssWatcher.py lines 207-237): same
dedup and creation logic as `add_text_thread`, differing only in the
SDK calls used to create the post, which do not affect this state. -/
def add_forum_thread (channel : ChannelState) (title : String) (override_episode_check : Bool) : Option ThreadHandle × ChannelState :=
  if override_episode_check = true ∨ title ∉ channel.threads.map (fun th => th.name) then
    let new_thread : ThreadHandle := { id := channel.nextId, name := title }
    (some new_thread, { threads := channel.threads ++ [new_thread], nextId := channel.nextId + 1 })
  else
    let threads := channel.threads.filter (fun th => th.name = title)
    if threads.length = 1 then (threads.head?, channel)
    else (none, channel)

/-- An untyped value in a feedparser map: the shapes the extractor
consults (a string, an integer, a mapping with an `href` entry, or a
tag list whose members carry a `term`). -/
inductive PyVal where
  | pstr (s : String)
  | pint (n : Int)
  | pdict (href : Option String)
  | plist (terms : List String)
deriving DecidableEq

/-- The result of `feedparser.parse`: the channel metadata map and the
ordered entry maps (RssWatcher.py line 150). -/
structure RssDoc where
  feed : String → Option PyVal
  entries : List (String → Option PyVal)

/-- Python `m.get(key, default)` for a string-valued field; a present
value of another shape is a dynamic-typing error (pydantic validation
would reject it), embedded as `typeError`. -/
def getStrD (m : String → Option PyVal) (key dflt : String) : Except PyErr String :=
  match m key with
  | none => .ok dflt
  | some (.pstr s) => .ok s
  | some _ => .error .typeError

/-- Python `m.get(key, 0)` for the episode-number field. -/
def getIntD (m : String → Option PyVal) (key : String) (dflt : Int) : Except PyErr Int :=
  match m key with
  | none => .ok dflt
  | some (.pint n) => .ok n
  | some _ => .error .typeError

/-- Python `m.get(key, dict()).get(href-key, empty)`: a missing outer
field defaults to the empty mapping, whose `href` lookup yields the
empty string. -/
def getHrefD (m : String → Option PyVal) (key : String) : Except PyErr String :=
  match m key with
  | none => .ok ""
  | some (.pdict h) => .ok (h.getD "")
  | some _ => .error .typeError

/-- Python list comprehension `tag.term for tag in m.get(key, list())`. -/
def getTermsD (m : String → Option PyVal) (key : String) : Except PyErr (List String) :=
  match m key with
  | none => .ok []
  | some (.plist ts) => .ok ts
  | some _ => .error .typeError

/-- `RssWatcher._get_channel_info` (RssWatcher.py lines 140-146). -/
def _get_channel_info (rss : RssFeedToChannel) (channel_info : String → Option PyVal) : Except PyErr ChannelData :=
  match getStrD channel_info rss.rss_channel_url_key "" with
  | .error e => .error e
  | .ok channel_url =>
  match getHrefD channel_info rss.rss_channel_image_key with
  | .error e => .error e
  | .ok channel_image_url =>
  match getStrD channel_info rss.rss_channel_last_published_key "" with
  | .error e => .error e
  | .ok channel_last_published =>
  match getStrD channel_info rss.rss_channel_title_key "" with
  | .error e => .error e
  | .ok channel_title =>
    .ok { channel_url := channel_url, channel_image_url := channel_image_url,
          channel_last_published := channel_last_published, channel_title := channel_title }

/-- `RssFeedToChannel.get_latest_episode_index_position`
(settings.py lines 97-102): `-1 * int(rss_feed_is_backwards)`. -/
def get_latest_episode_index_position (rss : RssFeedToChannel) : Int :=
  -1 * (if rss.rss_feed_is_backwards then 1 else 0)

/-- Python list indexing `l[i]` with negative indices counting from the
end; out of range raises `IndexError` (embedded as `none`). -/
def pyIndex {α : Type} (l : List α) (i : Int) : Option α :=
  if 0 ≤ i then l.get? i.toNat
  else if (-i).toNat ≤ l.length then l.get? (l.length - (-i).toNat)
  else none

/-- `RssWatcher._get_latest_episode_data` (RssWatcher.py lines
148-172), applied to an already fetched and parsed document (the
`feedparser.parse` network call is I/O). Indexing an empty entry list
raises `IndexError`; a consulted field of the wrong dynamic type raises
(embedded `typeError`); a missing field yields its documented default. -/
def _get_latest_episode_data (rss : RssFeedToChannel) (data : RssDoc) : Except PyErr EpisodeData :=
  match _get_channel_info rss data.feed with
  | .error e => .error e
  | .ok channel_info =>
  match pyIndex data.entries (get_latest_episode_index_position rss) with
  | none => .error .indexError
  | some latest_episode =>
  match getIntD latest_episode rss.rss_episode_key 0 with
  | .error e => .error e
  | .ok fetched_ep_id =>
  match getStrD latest_episode rss.rss_title_key "None" with
  | .error e => .error e
  | .ok title =>
  match getStrD latest_episode rss.rss_episode_url_key "None" with
  | .error e => .error e
  | .ok episode_url =>
  match getStrD latest_episode rss.rss_description_key "None" with
  | .error e => .error e
  | .ok description =>
  match getHrefD latest_episode rss.rss_image_key with
  | .error e => .error e
  | .ok image_url =>
  match getTermsD latest_episode rss.rss_tag_key with
  | .error e => .error e
  | .ok tags =>
    -- line 156-157 of the source: with override_episode_numbers set, the
    -- extracted id is replaced by the total entry count
    .ok { number := if rss.override_episode_numbers then (data.entries.length : Int) else fetched_ep_id,
          title := title, episode_url := episode_url,
          description := description, image_url := image_url, tags := tags,
          channel_url := channel_info.channel_url,
          channel_image_url := channel_info.channel_image_url,
          channel_last_published := channel_info.channel_last_published,
          channel_title := channel_info.channel_title }

/-- The I/O a poll tick performs for the feed at a given position in
the configured feed list: the outcome of the fetch-and-extract step
(`_get_latest_episode_data` composed with the network call), and the
outcome of the publish side effects (thread creation, announcement,
subscriber adds) should they be attempted. -/
structure TickEnv where
  fetch : Nat → Except PyErr EpisodeData
  publish : Nat → Except PyErr Unit

/-- The observable outcome the loop body logs for one feed in one tick
(RssWatcher.py lines 294-374): skipped for exceeded error count,
skipped as disabled, processed with no update, published a new episode,
or failed with a caught exception. -/
inductive StepResult where
  | skipped_errors
  | skipped_disabled
  | no_update
  | published (n : Int)
  | failed
deriving DecidableEq

/-- One iteration of the `for feed in self.feeds` loop inside
`RssWatcher.check_rss_feed` (RssWatcher.py lines 294-374): the error
threshold guard (line 295), the enabled guard (line 300), then the
`try` block calling `check_rss` (which advances the watermark before
any publish side effect) and the publish side effects, with the
`except` clause (lines 371-374) incrementing the error count of this
feed only. Returns the updated feed together with the logged outcome. -/
def feedStep (threshold : Nat) (env : TickEnv) (i : Nat) (feed : RssFeedToChannel) : RssFeedToChannel × StepResult :=
  if feed.error_count > threshold then (feed, .skipped_errors)
  else if feed.enabled = false then (feed, .skipped_disabled)
  else
    match env.fetch i with
    | .error _ => ({ feed with error_count := feed.error_count + 1 }, .failed)
    | .ok latest =>
      match check_rss feed none latest with
      | (some ep, feed2) =>
        match env.publish i with
        | .ok _ => (feed2, .published ep.number)
        | .error _ => ({ feed2 with error_count := feed2.error_count + 1 }, .failed)
      | (none, feed2) => (feed2, .no_update)

/-- The feed loop of `RssWatcher.check_rss_feed` from position `i`
onward: each feed is processed to completion before the next. -/
def tickFrom (threshold : Nat) (env : TickEnv) : Nat → List RssFeedToChannel → List (RssFeedToChannel × StepResult)
  | _, [] => []
  | i, feed :: rest => feedStep threshold env i feed :: tickFrom threshold env (i + 1) rest

/-- One full tick of the `check_rss_feed` loop over the configured feed
list. -/
def check_rss_feed (threshold : Nat) (env : TickEnv) (feeds : List RssFeedToChannel) : List (RssFeedToChannel × StepResult) :=
  tickFrom threshold env 0 feeds

/-- The successive outcomes one feed (at position `i`) sees across a
sequence of ticks, each tick with its own I/O environment. -/
def stepTrace (threshold : Nat) (i : Nat) : List TickEnv → RssFeedToChannel → List StepResult
  | [], _ => []
  | env :: rest, feed =>
    (feedStep threshold env i feed).2 :: stepTrace threshold i rest (feedStep threshold env i feed).1

/-- The feed state at position `i` after a sequence of ticks. -/
def iterFeed (threshold : Nat) (i : Nat) : List TickEnv → RssFeedToChannel → RssFeedToChannel
  | [], feed => feed
  | env :: rest, feed => iterFeed threshold i rest (feedStep threshold env i feed).1

/-- The startup loop in `RssWatcher.__init__` (RssWatcher.py lines
86-91) when `startup_latest_episode_check` is set: for each configured
feed, run `check_rss`; a fetch failure (for instance the `IndexError`
raised on a document with zero entries) propagates, and a `None` result
raises `RuntimeError`. On success it returns the feeds with their
seeded watermarks. -/
def rssWatcherStartupCheck (env : TickEnv) : Nat → List RssFeedToChannel → Except PyErr (List RssFeedToChannel)
  | _, [] => .ok []
  | i, feed :: rest => do
    match env.fetch i with
    | .error e => .error e
    | .ok latest =>
      match check_rss feed none latest with
      | (some _, feed2) =>
        let others ← rssWatcherStartupCheck env (i + 1) rest
        return feed2 :: others
      | (none, _) => .error .runtimeError

/-- A Python call of the bound method `check_rss` through its calling
convention: `rss` is a required positional parameter (RssWatcher.py
line 276), so a call that does not supply it raises `TypeError` before
the body runs. -/
def check_rss_call (rss_arg : Option RssFeedToChannel) (override_arg : Option (Option Int)) (fetched : Except PyErr EpisodeData) : Except PyErr (Option EpisodeData × RssFeedToChannel) :=
  match rss_arg with
  | none => .error .typeError
  | some rss =>
    match fetched with
    | .error e => .error e
    | .ok latest => .ok (check_rss rss (override_arg.getD none) latest)

/-- `on_ready` (discordbot.py lines 18-37): it calls
`rsswatcher.check_rss()` with no arguments (line 26), decides from the
result whether to arm the periodic loop with `check_rss_feed.start()`
(line 30), raises `RuntimeError` on a `None` result (line 32), and the
`except` clause re-raises every exception (lines 35-37). Returns
`.ok true` exactly when the periodic loop is started. -/
def on_ready (fetched : Except PyErr EpisodeData) : Except PyErr Bool :=
  match check_rss_call none none fetched with
  | .error e => .error e
  | .ok (some _, _) => .ok true
  | .ok (none, _) => .error .runtimeError

/-! Concrete sample values used by witnesses and counterexamples. -/

/-- A concrete episode snapshot with the given number and title. -/
def sampleEp (n : Int) (t : String) : EpisodeData :=
  { channel_title := "Chan", channel_url := "https://chan", channel_image_url := "https://chan/img",
    channel_last_published := "Mon, 01 Jan 2024 00:00:00 +0000", number := n, title := t,
    description := "d", image_url := "https://img", episode_url := "https://ep", tags := ["tag"] }

/-- A concrete episode snapshot with the given raw description. -/
def sampleEpD (d : String) : EpisodeData :=
  { sampleEp 1 "T" with description := d }

/-- A concrete feed record with the given watermark and error count,
carrying the default schema keys of settings.py lines 75-85. -/
def sampleFeed (w : Int) (ec : Nat) : RssFeedToChannel :=
  { enabled := true, error_count := ec, current_episode := w,
    rss_episode_key := "itunes_episode", rss_episode_url_key := "link",
    rss_title_key := "itunes_title", rss_description_key := "subtitle",
    rss_image_key := "image", rss_tag_key := "tags",
    rss_channel_title_key := "title", rss_channel_url_key := "link",
    rss_channel_image_key := "image", rss_channel_last_published_key := "published",
    override_episode_numbers := false, rss_feed_is_backwards := false }

/-! Helper lemmas on the double-line-break search. -/

theorem startsNN_iff (l : List Char) : startsNN l = true ↔ ∃ r, l = '\n' :: '\n' :: r := by
  match l with
  | [] => simp [startsNN]
  | [c] => simp [startsNN]
  | c :: d :: r =>
    simp only [startsNN, Bool.and_eq_true, beq_iff_eq]
    constructor
    · rintro ⟨rfl, rfl⟩; exact ⟨r, rfl⟩
    · rintro ⟨r2, h⟩
      injection h with h1 h
      injection h with h2 _
      exact ⟨h1, h2⟩

theorem cutNN_isSome (l : List Char) : (cutNN l).isSome = hasNN l := by
  induction l with
  | nil => rfl
  | cons c rest ih =>
    by_cases h : startsNN (c :: rest) = true
    · simp [cutNN, hasNN, h]
    · simp only [Bool.not_eq_true] at h
      simp [cutNN, hasNN, h, ih]

theorem cutNN_eq_some (l t : List Char) (h : cutNN l = some t) :
    hasNN (t ++ ['\n']) = false ∧ ∃ r, l = t ++ '\n' :: '\n' :: r := by
  induction l generalizing t with
  | nil => simp [cutNN] at h
  | cons c rest ih =>
    by_cases hs : startsNN (c :: rest) = true
    · rw [cutNN, if_pos hs] at h
      obtain ⟨r, hr⟩ := (startsNN_iff (c :: rest)).mp hs
      injection h with h
      subst h
      refine ⟨rfl, r, ?_⟩
      simpa using hr
    · rw [cutNN, if_neg hs] at h
      simp only [Option.map_eq_some'] at h
      obtain ⟨t2, ht2, rfl⟩ := h
      obtain ⟨hno, r, hr⟩ := ih t2 ht2
      subst hr
      simp only [Bool.not_eq_true] at hs
      refine ⟨?_, r, rfl⟩
      rw [List.cons_append, hasNN, hno, Bool.or_false]
      match t2 with
      | [] =>
        simp only [List.nil_append, startsNN] at hs ⊢
        simpa using hs
      | d :: t3 =>
        simp only [List.cons_append, startsNN] at hs ⊢
        exact hs

/-! Claim theorems. -/

/-- Claim C1: for every feed and every fetched document, check_rss returns a
non-NONE snapshot if and only if the extracted episode number is strictly
greater than the baseline used for the comparison, and when it returns
non-NONE it sets the feed watermark current_episode to exactly that number;
on NONE the feed record, its watermark included, is unchanged. -/
theorem check_rss_gate (rss : RssFeedToChannel) (ov : Option Int) (latest : EpisodeData) :
    ((check_rss rss ov latest).1 ≠ none ↔ latest.number > pyOr ov rss.current_episode) ∧
    ((check_rss rss ov latest).1 ≠ none →
      (check_rss rss ov latest).1 = some latest ∧
      (check_rss rss ov latest).2.current_episode = latest.number) ∧
    ((check_rss rss ov latest).1 = none → (check_rss rss ov latest).2 = rss) := by
  unfold check_rss
  by_cases h : latest.number > pyOr ov rss.current_episode <;> simp [h]

/-- Witness for C1 at watermark 5, no override and extracted number 7. -/
theorem check_rss_gate_witness :
    (check_rss (sampleFeed 5 0) none (sampleEp 7 "T")).1 = some (sampleEp 7 "T") ∧
    (check_rss (sampleFeed 5 0) none (sampleEp 7 "T")).2.current_episode = 7 :=
  (check_rss_gate (sampleFeed 5 0) none (sampleEp 7 "T")).2.1 (by decide)

/-- Claim C2 counterexample: with watermark 5, provided override value 0 and
extracted number 3, the baseline the claim prescribes is 0 and 3 > 0, so the
claim demands a non-NONE result; check_rss returns NONE because the Python
`or` on line 281 treats the falsy 0 like an absent override. -/
theorem check_rss_override_zero_counterexample :
    specBaseline (some 0) (sampleFeed 5 0).current_episode = 0 ∧
    (sampleEp 3 "T").number > specBaseline (some 0) (sampleFeed 5 0).current_episode ∧
    (check_rss (sampleFeed 5 0) (some 0) (sampleEp 3 "T")).1 = none := by decide

/-- Claim C2 (amended): when the override value v is provided and nonzero the
baseline used by check_rss is v (not the watermark w); when the override is
absent the baseline is w; and when the provided override value is 0 the check
behaves exactly as if no override had been provided, using baseline w. -/
theorem check_rss_override_baseline (rss : RssFeedToChannel) (v : Int) (latest : EpisodeData) (hv : v ≠ 0) :
    (((check_rss rss (some v) latest).1 ≠ none ↔ latest.number > v) ∧
     ((check_rss rss none latest).1 ≠ none ↔ latest.number > rss.current_episode)) ∧
    check_rss rss (some 0) latest = check_rss rss none latest := by
  have h1 : pyOr (some v) rss.current_episode = v := by simp [pyOr, hv]
  have h3 : pyOr (some 0) rss.current_episode = pyOr none rss.current_episode := by simp [pyOr]
  refine ⟨⟨?_, ?_⟩, ?_⟩
  · unfold check_rss
    rw [h1]
    by_cases h : latest.number > v <;> simp [h]
  · unfold check_rss
    by_cases h : latest.number > rss.current_episode <;> simp [pyOr, h]
  · unfold check_rss
    rw [h3]

/-- Witness for C2 (amended) with nonzero override 9, watermark 5 and
extracted number 7: the baseline is 9, so no new episode is signalled. -/
theorem check_rss_override_baseline_witness :
    (check_rss (sampleFeed 5 0) (some 9) (sampleEp 7 "T")).1 = none := by
  have h := (check_rss_override_baseline (sampleFeed 5 0) 9 (sampleEp 7 "T") (by decide)).1.1
  by_cases hc : (check_rss (sampleFeed 5 0) (some 9) (sampleEp 7 "T")).1 = none
  · exact hc
  · exact absurd (h.mp hc) (by decide)

/-- Claim C3, evaluated at the failing input of the claim itself: with
episode number 12 and title "Episode 12: Foo" the code checks only whether
the title starts with "12", so it inserts the number again and returns
"Show 12: Episode 12: Foo", not the "Show Episode 12: Foo" the claim and
the function docstring (insert only when the title does not already contain
the number) prescribe; with title "Foo" the code returns "Show 12: Foo" as
the claim states. -/
theorem get_title_startswith_divergence :
    (sampleEp 12 "Episode 12: Foo").get_title "Show" false = "Show 12: Episode 12: Foo" ∧
    (sampleEp 12 "Foo").get_title "Show" false = "Show 12: Foo" := by decide

/-- Claim C4 counterexample: with truncate=true and a converted description
with no double line-break, the code raises ValueError from str.index
(embedded as none) instead of returning a cut text, against the claim
phrase "for every input". -/
theorem get_description_truncate_counterexample :
    (sampleEpD "Hello").get_description (fun s => s) true = none := by decide

/-- Claim C4 (amended): with truncate=false the markdown-converted text is
returned unchanged when its length is at most 2000 and otherwise cut to its
first 1997 characters plus "..."; with truncate=true the call raises
ValueError when the converted text contains no double line-break, and
otherwise returns the prefix of the text strictly before the first double
line-break. -/
theorem get_description_spec (mdf : String → String) (e : EpisodeData) :
    (pyLen (mdf e.description) ≤ 2000 →
      e.get_description mdf false = some (mdf e.description)) ∧
    (pyLen (mdf e.description) > 2000 →
      e.get_description mdf false = some (pyTake (mdf e.description) 1997 ++ "...")) ∧
    (hasNN (mdf e.description).data = false → e.get_description mdf true = none) ∧
    (∀ t, e.get_description mdf true = some t →
      hasNN (t.data ++ ['\n']) = false ∧
      ∃ r, (mdf e.description).data = t.data ++ '\n' :: '\n' :: r) ∧
    (hasNN (mdf e.description).data = true → ∃ t, e.get_description mdf true = some t) := by
  unfold EpisodeData.get_description
  refine ⟨?_, ?_, ?_, ?_, ?_⟩
  · intro h
    have h2 : ¬ pyLen (mdf e.description) > 2000 := by omega
    simp [h2]
  · intro h
    simp [h]
  · intro h
    have h2 : cutNN (mdf e.description).data = none := by
      have := cutNN_isSome (mdf e.description).data
      rw [h] at this
      exact Option.not_isSome_iff_eq_none.mp (by simp [this])
    simp [h2]
  · intro t ht
    simp only [if_pos, Option.map_eq_some'] at ht
    obtain ⟨l, hl, rfl⟩ := ht
    have := cutNN_eq_some _ _ hl
    simpa using this
  · intro h
    have h2 : (cutNN (mdf e.description).data).isSome = true := by rw [cutNN_isSome, h]
    obtain ⟨l, hl⟩ := Option.isSome_iff_exists.mp h2
    exact ⟨String.mk l, by simp [hl]⟩

/-- Witness for C4 (amended): a short description is returned unchanged. -/
theorem get_description_spec_witness :
    (sampleEpD "Hi").get_description (fun s => s) false = some "Hi" :=
  (get_description_spec (fun s => s) (sampleEpD "Hi")).1 (by decide)

/-- After a call without the override, the title is among the channel
thread names. -/
theorem add_text_thread_mem (ch : ChannelState) (title : String) :
    title ∈ (add_text_thread ch title false).2.threads.map (fun th => th.name) := by
  unfold add_text_thread
  by_cases h : title ∈ ch.threads.map (fun th => th.name)
  · have hc : ¬ (false = true ∨ title ∉ ch.threads.map (fun th => th.name)) := by
      simp [h]
    rw [if_neg hc]
    dsimp only
    split <;> simpa using h
  · rw [if_pos (Or.inr h)]
    simp

/-- A call without the override on a channel already containing the
title: no thread is created, the channel is unchanged, and the result is
the unique existing thread with that title when there is exactly one,
and NONE when there is more than one. -/
theorem add_text_thread_dedup (ch : ChannelState) (title : String)
    (hmem : title ∈ ch.threads.map (fun th => th.name)) :
    (add_text_thread ch title false).2 = ch ∧
    ((ch.threads.filter (fun th => th.name = title)).length = 1 →
      ∃ t, (add_text_thread ch title false).1 = some t ∧ t ∈ ch.threads ∧ t.name = title) ∧
    ((ch.threads.filter (fun th => th.name = title)).length > 1 →
      (add_text_thread ch title false).1 = none) := by
  unfold add_text_thread
  have hc : ¬ (false = true ∨ title ∉ ch.threads.map (fun th => th.name)) := by
    simp [hmem]
  rw [if_neg hc]
  dsimp only
  refine ⟨?_, ?_, ?_⟩
  · split <;> rfl
  · intro h1
    obtain ⟨t, ht⟩ := List.length_eq_one.mp h1
    have htm : t ∈ ch.threads.filter (fun th => th.name = title) := by simp [ht]
    refine ⟨t, ?_, (List.mem_filter.mp htm).1, by simpa using (List.mem_filter.mp htm).2⟩
    simp [h1, ht]
  · intro h1
    have h2 : ¬ (ch.threads.filter (fun th => th.name = title)).length = 1 := by omega
    simp [h2]

/-- Claim C5: with the always-publish override false, publishing is
idempotent in the title for both channel variants: after a first call
with a given title, a second call with the same title on the resulting
channel creates no thread (the channel state is unchanged), returns the
existing thread with that title when exactly one existing thread has
that title, and returns NONE when more than one existing thread has
that title. -/
theorem publish_idempotent (ch : ChannelState) (title : String) :
    ((add_text_thread (add_text_thread ch title false).2 title false).2 = (add_text_thread ch title false).2 ∧
     (((add_text_thread ch title false).2.threads.filter (fun th => th.name = title)).length = 1 →
       ∃ t, (add_text_thread (add_text_thread ch title false).2 title false).1 = some t ∧
         t ∈ (add_text_thread ch title false).2.threads ∧ t.name = title) ∧
     (((add_text_thread ch title false).2.threads.filter (fun th => th.name = title)).length > 1 →
       (add_text_thread (add_text_thread ch title false).2 title false).1 = none)) ∧
    ((add_forum_thread (add_forum_thread ch title false).2 title false).2 = (add_forum_thread ch title false).2 ∧
     (((add_forum_thread ch title false).2.threads.filter (fun th => th.name = title)).length = 1 →
       ∃ t, (add_forum_thread (add_forum_thread ch title false).2 title false).1 = some t ∧
         t ∈ (add_forum_thread ch title false).2.threads ∧ t.name = title) ∧
     (((add_forum_thread ch title false).2.threads.filter (fun th => th.name = title)).length > 1 →
       (add_forum_thread (add_forum_thread ch title false).2 title false).1 = none)) := by
  have e : add_forum_thread = add_text_thread := rfl
  have h := add_text_thread_dedup (add_text_thread ch title false).2 title (add_text_thread_mem ch title)
  exact ⟨h, by rw [e]; exact h⟩

/-- Witness for C5: a channel that already holds two distinct threads
both titled "A"; the second call after a first publish returns NONE and
leaves the channel unchanged. -/
theorem publish_idempotent_witness :
    (add_text_thread (add_text_thread { threads := [{ id := 0, name := "A" }, { id := 1, name := "A" }], nextId := 2 } "A" false).2 "A" false).1 = none :=
  (publish_idempotent { threads := [{ id := 0, name := "A" }, { id := 1, name := "A" }], nextId := 2 } "A").1.2.2 (by decide)

/-- check_rss never touches the error count or the enabled flag. -/
theorem check_rss_preserves (rss : RssFeedToChannel) (ov : Option Int) (latest : EpisodeData) :
    (check_rss rss ov latest).2.error_count = rss.error_count ∧
    (check_rss rss ov latest).2.enabled = rss.enabled := by
  unfold check_rss
  by_cases h : latest.number > pyOr ov rss.current_episode <;> simp [h]

/-- A feed over the error threshold is left untouched and reported as
skipped. -/
theorem feedStep_tripped (threshold : Nat) (env : TickEnv) (i : Nat) (f : RssFeedToChannel)
    (h : f.error_count > threshold) :
    feedStep threshold env i f = (f, .skipped_errors) := by
  unfold feedStep
  rw [if_pos h]

/-- The step reports skipped_errors exactly when the error count already
exceeds the threshold. -/
theorem feedStep_skipped_iff (threshold : Nat) (env : TickEnv) (i : Nat) (f : RssFeedToChannel) :
    (feedStep threshold env i f).2 = .skipped_errors ↔ f.error_count > threshold := by
  constructor
  · unfold feedStep
    split
    · rename_i h
      exact fun _ => h
    · split
      · intro hc
        simp at hc
      · split
        · intro hc
          simp at hc
        · split
          · split
            · intro hc
              simp at hc
            · intro hc
              simp at hc
          · intro hc
            simp at hc
  · intro h
    rw [feedStep_tripped threshold env i f h]

/-- The error count never decreases across a step. -/
theorem feedStep_error_mono (threshold : Nat) (env : TickEnv) (i : Nat) (f : RssFeedToChannel) :
    f.error_count ≤ (feedStep threshold env i f).1.error_count := by
  unfold feedStep
  split
  · exact Nat.le_refl _
  · split
    · exact Nat.le_refl _
    · split
      · simp
      · rename_i latest hfetch
        split
        · rename_i ep feed2 heq
          have hpres : feed2.error_count = f.error_count := by
            have h2 := (check_rss_preserves f none latest).1
            rw [heq] at h2
            exact h2
          split
          · simp [hpres]
          · simp [hpres]
        · rename_i feed2 heq
          have hpres : feed2.error_count = f.error_count := by
            have h2 := (check_rss_preserves f none latest).1
            rw [heq] at h2
            exact h2
          simp [hpres]

/-- Claim C6: a feed is skipped by the poll loop for its errors exactly
when its cumulative error count exceeds the configured threshold and
never before; the error count never decreases, and once the count
exceeds the threshold the feed is reported skipped, unchanged, on every
subsequent poll cycle. -/
theorem error_breaker (threshold : Nat) (env : TickEnv) (i : Nat) (f : RssFeedToChannel) :
    ((feedStep threshold env i f).2 = .skipped_errors ↔ f.error_count > threshold) ∧
    f.error_count ≤ (feedStep threshold env i f).1.error_count ∧
    (f.error_count > threshold → ∀ envs : List TickEnv,
      iterFeed threshold i envs f = f ∧
      stepTrace threshold i envs f = envs.map (fun _ => StepResult.skipped_errors)) := by
  refine ⟨feedStep_skipped_iff threshold env i f, feedStep_error_mono threshold env i f, ?_⟩
  intro h envs
  induction envs with
  | nil => exact ⟨rfl, rfl⟩
  | cons env2 rest ih =>
    have hs := feedStep_tripped threshold env2 i f h
    constructor
    · show iterFeed threshold i rest (feedStep threshold env2 i f).1 = f
      rw [hs]
      exact ih.1
    · show (feedStep threshold env2 i f).2 :: stepTrace threshold i rest (feedStep threshold env2 i f).1 =
        StepResult.skipped_errors :: rest.map (fun _ => StepResult.skipped_errors)
      rw [hs]
      exact congrArg (fun l => StepResult.skipped_errors :: l) ih.2

/-- Witness for C6: with threshold 3 and error count 4 the feed is
reported skipped and is unchanged over two further cycles. -/
theorem error_breaker_witness :
    (feedStep 3 { fetch := fun _ => .error .other, publish := fun _ => .ok () } 0 (sampleFeed 5 4)).2 = .skipped_errors ∧
    iterFeed 3 0 [{ fetch := fun _ => .error .other, publish := fun _ => .ok () }, { fetch := fun _ => .error .other, publish := fun _ => .ok () }] (sampleFeed 5 4) = sampleFeed 5 4 :=
  have h := error_breaker 3 { fetch := fun _ => .error .other, publish := fun _ => .ok () } 0 (sampleFeed 5 4)
  ⟨h.1.mpr (by decide),
   (h.2.2 (by decide) [{ fetch := fun _ => .error .other, publish := fun _ => .ok () }, { fetch := fun _ => .error .other, publish := fun _ => .ok () }]).1⟩

/-- The loop from position i processes every feed with its own step. -/
theorem tickFrom_get (threshold : Nat) (env : TickEnv) (feeds : List RssFeedToChannel) :
    ∀ (i j : Nat), (tickFrom threshold env i feeds).get? j =
      (feeds.get? j).map (fun f => feedStep threshold env (i + j) f) := by
  induction feeds with
  | nil =>
    intro i j
    simp [tickFrom]
  | cons f rest ih =>
    intro i j
    cases j with
    | zero => simp [tickFrom]
    | succ j2 =>
      have := ih (i + 1) j2
      simp only [tickFrom, List.get?_cons_succ, this]
      have harith : i + 1 + j2 = i + (j2 + 1) := by omega
      rw [harith]

/-- A step that catches an exception increments the error count of that
feed by exactly one and leaves its enabled flag alone. -/
theorem feedStep_failed_increment (threshold : Nat) (env : TickEnv) (i : Nat) (f : RssFeedToChannel) :
    (feedStep threshold env i f).2 = .failed →
      (feedStep threshold env i f).1.error_count = f.error_count + 1 ∧
      (feedStep threshold env i f).1.enabled = f.enabled := by
  unfold feedStep
  split
  · intro hc
    exact absurd hc (by simp)
  · split
    · intro hc
      exact absurd hc (by simp)
    · split
      · intro _
        exact ⟨rfl, rfl⟩
      · rename_i latest hfetch
        split
        · rename_i ep feed2 heq
          have hpres := check_rss_preserves f none latest
          rw [heq] at hpres
          split
          · intro hc
            exact absurd hc (by simp)
          · intro _
            have h1 : feed2.error_count = f.error_count := hpres.1
            have h2 : feed2.enabled = f.enabled := hpres.2
            exact ⟨by simp [h1], by simp [h2]⟩
        · rename_i feed2 heq
          intro hc
          exact absurd hc (by simp)

/-- A step that catches no exception leaves the error count unchanged. -/
theorem feedStep_ok_same_errors (threshold : Nat) (env : TickEnv) (i : Nat) (f : RssFeedToChannel) :
    (feedStep threshold env i f).2 ≠ .failed →
      (feedStep threshold env i f).1.error_count = f.error_count := by
  unfold feedStep
  split
  · intro _
    rfl
  · split
    · intro _
      rfl
    · split
      · intro hc
        exact absurd rfl hc
      · rename_i latest hfetch
        split
        · rename_i ep feed2 heq
          have hpres := check_rss_preserves f none latest
          rw [heq] at hpres
          split
          · intro _
            exact hpres.1
          · intro hc
            exact absurd rfl hc
        · rename_i feed2 heq
          have hpres := check_rss_preserves f none latest
          rw [heq] at hpres
          intro _
          exact hpres.1

/-- Claim C9: within one poll tick every feed in the configured order is
processed by its own isolated step (an exception in one feed never
prevents the processing of the feeds after it, and the outcome at each
position depends only on that feed and its own I/O); a step in which the
processing raises increments exactly that feed error count by one, and a
step that raises nothing leaves the error count unchanged. -/
theorem tick_isolation (threshold : Nat) (env : TickEnv) (feeds : List RssFeedToChannel) :
    ((check_rss_feed threshold env feeds).length = feeds.length ∧
     ∀ j, (check_rss_feed threshold env feeds).get? j =
       (feeds.get? j).map (fun f => feedStep threshold env j f)) ∧
    (∀ i f, (feedStep threshold env i f).2 = .failed →
      (feedStep threshold env i f).1.error_count = f.error_count + 1 ∧
      (feedStep threshold env i f).1.enabled = f.enabled) ∧
    (∀ i f, (feedStep threshold env i f).2 ≠ .failed →
      (feedStep threshold env i f).1.error_count = f.error_count) := by
  refine ⟨⟨?_, ?_⟩, ?_, ?_⟩
  · show (tickFrom threshold env 0 feeds).length = feeds.length
    induction feeds with
    | nil => rfl
    | cons f rest ih =>
      -- the length of the loop output never depends on the start index
      have hlen : ∀ (i : Nat) (l : List RssFeedToChannel), (tickFrom threshold env i l).length = l.length := by
        intro i l
        induction l generalizing i with
        | nil => rfl
        | cons g r ih2 => simpa [tickFrom] using ih2 (i + 1)
      exact hlen 0 (f :: rest)
  · intro j
    have := tickFrom_get threshold env feeds 0 j
    simpa using this
  · intro i f hfail
    exact feedStep_failed_increment threshold env i f hfail
  · intro i f hok
    exact feedStep_ok_same_errors threshold env i f hok

/-- Witness for C9: a two-feed tick in which the first feed raises on
fetch: its error count goes from 0 to 1 and the second feed is still
processed, finding no update. -/
theorem tick_isolation_witness :
    (check_rss_feed 3 { fetch := fun j => if j = 0 then .error .other else .ok (sampleEp 5 "T"), publish := fun _ => .ok () } [sampleFeed 5 0, sampleFeed 5 0]).get? 1 =
      some (sampleFeed 5 0, StepResult.no_update) ∧
    (feedStep 3 { fetch := fun j => if j = 0 then .error .other else .ok (sampleEp 5 "T"), publish := fun _ => .ok () } 0 (sampleFeed 5 0)).1.error_count = 0 + 1 :=
  have h := tick_isolation 3 { fetch := fun j => if j = 0 then .error .other else .ok (sampleEp 5 "T"), publish := fun _ => .ok () } [sampleFeed 5 0, sampleFeed 5 0]
  ⟨by rw [h.1.2 1]; decide,
   (h.2.1 0 (sampleFeed 5 0) (by decide)).1⟩

/-- With no override, check_rss never lowers the watermark. -/
theorem check_rss_none_mono (rss : RssFeedToChannel) (latest : EpisodeData) :
    rss.current_episode ≤ (check_rss rss none latest).2.current_episode := by
  unfold check_rss pyOr
  by_cases h : latest.number > rss.current_episode
  · simp only [if_pos h]
    omega
  · simp only [if_neg h]
    exact le_refl _

/-- Inversion of a new-episode signal: the returned snapshot is the
fetched one, its number is above the baseline, and the watermark has
been set to it. -/
theorem check_rss_some_inv (rss : RssFeedToChannel) (ov : Option Int) (latest ep : EpisodeData) (feed2 : RssFeedToChannel)
    (h : check_rss rss ov latest = (some ep, feed2)) :
    ep = latest ∧ latest.number > pyOr ov rss.current_episode ∧ feed2.current_episode = latest.number := by
  unfold check_rss at h
  by_cases hgt : latest.number > pyOr ov rss.current_episode
  · rw [if_pos hgt] at h
    have h2 := congrArg Prod.fst h
    have h3 := congrArg Prod.snd h
    simp only at h2 h3
    injection h2 with h2
    exact ⟨h2.symm, hgt, by rw [← h3]⟩
  · rw [if_neg hgt] at h
    have h2 := congrArg Prod.fst h
    simp only at h2
    exact Option.noConfusion h2

/-- The watermark never decreases across a step. -/
theorem feedStep_current_mono (threshold : Nat) (env : TickEnv) (i : Nat) (f : RssFeedToChannel) :
    f.current_episode ≤ (feedStep threshold env i f).1.current_episode := by
  unfold feedStep
  split
  · exact le_refl _
  · split
    · exact le_refl _
    · split
      · simp
      · rename_i latest hfetch
        split
        · rename_i ep feed2 heq
          have hmono := check_rss_none_mono f latest
          rw [heq] at hmono
          split
          · exact hmono
          · simpa using hmono
        · rename_i feed2 heq
          have hmono := check_rss_none_mono f latest
          rw [heq] at hmono
          exact hmono

/-- A published outcome always carries a number above the watermark the
feed had at the start of the step. -/
theorem feedStep_published_gt (threshold : Nat) (env : TickEnv) (i : Nat) (f : RssFeedToChannel) (n : Int) :
    (feedStep threshold env i f).2 = .published n → f.current_episode < n := by
  unfold feedStep
  split
  · intro hc
    exact absurd hc (by simp)
  · split
    · intro hc
      exact absurd hc (by simp)
    · split
      · intro hc
        exact absurd hc (by simp)
      · rename_i latest hfetch
        split
        · rename_i ep feed2 heq
          have hinv := check_rss_some_inv f none latest ep feed2 heq
          split
          · intro hc
            have hn : ep.number = n := by simpa using hc
            have hgt : latest.number > f.current_episode := by simpa [pyOr] using hinv.2.1
            rw [hinv.1] at hn
            omega
          · intro hc
            exact absurd hc (by simp)
        · rename_i feed2 heq
          intro hc
          exact absurd hc (by simp)

/-- Once the watermark is at or above N, no later tick ever reports a
publish of episode N again. -/
theorem stepTrace_no_republish (threshold i : Nat) (N : Int) :
    ∀ (envs : List TickEnv) (f : RssFeedToChannel), N ≤ f.current_episode →
      StepResult.published N ∉ stepTrace threshold i envs f := by
  intro envs
  induction envs with
  | nil =>
    intro f h
    simp [stepTrace]
  | cons env rest ih =>
    intro f h
    simp only [stepTrace, List.mem_cons]
    push_neg
    refine ⟨?_, ?_⟩
    · intro hc
      have := feedStep_published_gt threshold env i f N hc.symm
      omega
    · exact ih _ (le_trans h (feedStep_current_mono threshold env i f))

/-- Claim C10: when a feed is processed, the watermark is advanced to
the new episode number inside check_rss, before any publish side effect
is attempted; if the publish side effects then raise, the step still
leaves the watermark at the new number (with the error count
incremented and a failure reported), and on every sequence of later
ticks that episode number is never again reported as published. -/
theorem watermark_advanced_before_publish (threshold : Nat) (env : TickEnv) (i : Nat)
    (f : RssFeedToChannel) (latest : EpisodeData) (e : PyErr)
    (hec : ¬ f.error_count > threshold) (hen : ¬ f.enabled = false)
    (hf : env.fetch i = .ok latest) (hnew : latest.number > f.current_episode)
    (hp : env.publish i = .error e) :
    (feedStep threshold env i f).1.current_episode = latest.number ∧
    (feedStep threshold env i f).1.error_count = f.error_count + 1 ∧
    (feedStep threshold env i f).2 = .failed ∧
    ∀ envs : List TickEnv,
      StepResult.published latest.number ∉ stepTrace threshold i envs (feedStep threshold env i f).1 := by
  have hcr : check_rss f none latest =
      (some latest, { f with current_episode := latest.number }) := by
    unfold check_rss pyOr
    rw [if_pos hnew]
  have hstep : feedStep threshold env i f =
      ({ f with current_episode := latest.number, error_count := f.error_count + 1 }, .failed) := by
    unfold feedStep
    simp only [if_neg hec, if_neg hen, hf, hcr, hp]
  rw [hstep]
  refine ⟨rfl, rfl, rfl, ?_⟩
  intro envs
  exact stepTrace_no_republish threshold i latest.number envs _ (le_refl _)

/-- The tick I/O used by the C10 witness: the fetch finds episode 7 and
every publish attempt raises. -/
def envFail : TickEnv :=
  { fetch := fun _ => .ok (sampleEp 7 "T"), publish := fun _ => .error .runtimeError }

/-- Witness for C10: watermark 5, fetched episode 7, failing publish:
the watermark ends at 7 and two further failing ticks never report a
publish of episode 7. -/
theorem watermark_advanced_before_publish_witness :
    (feedStep 3 envFail 0 (sampleFeed 5 0)).1.current_episode = 7 ∧
    StepResult.published 7 ∉ stepTrace 3 0 [envFail, envFail] (feedStep 3 envFail 0 (sampleFeed 5 0)).1 :=
  have h := watermark_advanced_before_publish 3 envFail 0 (sampleFeed 5 0) (sampleEp 7 "T") .runtimeError
    (by decide) (by decide) rfl (by decide) rfl
  ⟨h.1, h.2.2.2 [envFail, envFail]⟩

/-- Channel metadata defaults: a missing channel field yields the empty
string. -/
theorem channel_info_defaults (rss : RssFeedToChannel) (m : String → Option PyVal) (ci : ChannelData)
    (h : _get_channel_info rss m = .ok ci) :
    (m rss.rss_channel_title_key = none → ci.channel_title = "") ∧
    (m rss.rss_channel_url_key = none → ci.channel_url = "") ∧
    (m rss.rss_channel_image_key = none → ci.channel_image_url = "") ∧
    (m rss.rss_channel_last_published_key = none → ci.channel_last_published = "") := by
  unfold _get_channel_info at h
  split at h
  · exact absurd h (by simp)
  · rename_i u hu
    split at h
    · exact absurd h (by simp)
    · rename_i v hv
      split at h
      · exact absurd h (by simp)
      · rename_i w hw
        split at h
        · exact absurd h (by simp)
        · rename_i t ht
          have hci : ci = { channel_url := u, channel_image_url := v, channel_last_published := w, channel_title := t } := by
            injection h with h2
            exact h2.symm
          subst hci
          refine ⟨?_, ?_, ?_, ?_⟩
          · intro hm
            simp only [getStrD, hm] at ht
            injection ht with h2
            exact h2.symm
          · intro hm
            simp only [getStrD, hm] at hu
            injection hu with h2
            exact h2.symm
          · intro hm
            simp only [getHrefD, hm] at hv
            injection hv with h2
            exact h2.symm
          · intro hm
            simp only [getStrD, hm] at hw
            injection hw with h2
            exact h2.symm

/-- Claim C7 (amended): extraction of a document with at least one entry
never fails because of a missing optional field, only because of a
present field of an unexpected shape; each missing entry string field
among title, episode URL and description defaults to the string "None",
a missing episode number defaults to 0 (when numbering is not
overridden), a missing image mapping or tag collection defaults to the
empty string or empty list, and each missing channel metadata string
field defaults to the empty string, not to "None". -/
theorem extraction_defaults (rss : RssFeedToChannel) (data : RssDoc) :
    (∀ entry, pyIndex data.entries (get_latest_episode_index_position rss) = some entry →
      (∃ ci, _get_channel_info rss data.feed = .ok ci) →
      (∃ x1, getIntD entry rss.rss_episode_key 0 = .ok x1) →
      (∃ x2, getStrD entry rss.rss_title_key "None" = .ok x2) →
      (∃ x3, getStrD entry rss.rss_episode_url_key "None" = .ok x3) →
      (∃ x4, getStrD entry rss.rss_description_key "None" = .ok x4) →
      (∃ x5, getHrefD entry rss.rss_image_key = .ok x5) →
      (∃ x6, getTermsD entry rss.rss_tag_key = .ok x6) →
      ∃ ep, _get_latest_episode_data rss data = .ok ep) ∧
    (∀ ep, _get_latest_episode_data rss data = .ok ep →
      ∀ entry, pyIndex data.entries (get_latest_episode_index_position rss) = some entry →
      ((entry rss.rss_title_key = none → ep.title = "None") ∧
       (entry rss.rss_episode_url_key = none → ep.episode_url = "None") ∧
       (entry rss.rss_description_key = none → ep.description = "None") ∧
       (entry rss.rss_episode_key = none → rss.override_episode_numbers = false → ep.number = 0) ∧
       (entry rss.rss_image_key = none → ep.image_url = "") ∧
       (entry rss.rss_tag_key = none → ep.tags = []) ∧
       (data.feed rss.rss_channel_title_key = none → ep.channel_title = "") ∧
       (data.feed rss.rss_channel_url_key = none → ep.channel_url = "") ∧
       (data.feed rss.rss_channel_image_key = none → ep.channel_image_url = "") ∧
       (data.feed rss.rss_channel_last_published_key = none → ep.channel_last_published = ""))) := by
  constructor
  · rintro entry hentry ⟨ci, hci⟩ ⟨x1, hx1⟩ ⟨x2, hx2⟩ ⟨x3, hx3⟩ ⟨x4, hx4⟩ ⟨x5, hx5⟩ ⟨x6, hx6⟩
    unfold _get_latest_episode_data
    simp only [hci, hentry, hx1, hx2, hx3, hx4, hx5, hx6]
    exact ⟨_, rfl⟩
  · intro ep hok entry hentry
    unfold _get_latest_episode_data at hok
    split at hok
    · exact absurd hok (by simp)
    · rename_i ci hci
      split at hok
      · exact absurd hok (by simp)
      · rename_i latest_episode hidx
        rw [hentry] at hidx
        have hent : entry = latest_episode := Option.some.inj hidx
        subst hent
        split at hok
        · exact absurd hok (by simp)
        · rename_i x1 hx1
          split at hok
          · exact absurd hok (by simp)
          · rename_i x2 hx2
            split at hok
            · exact absurd hok (by simp)
            · rename_i x3 hx3
              split at hok
              · exact absurd hok (by simp)
              · rename_i x4 hx4
                split at hok
                · exact absurd hok (by simp)
                · rename_i x5 hx5
                  split at hok
                  · exact absurd hok (by simp)
                  · rename_i x6 hx6
                    have hchan := channel_info_defaults rss data.feed ci hci
                    have hep : ep = { number := if rss.override_episode_numbers then (data.entries.length : Int) else x1
                                    , title := x2, episode_url := x3, description := x4, image_url := x5, tags := x6
                                    , channel_url := ci.channel_url, channel_image_url := ci.channel_image_url
                                    , channel_last_published := ci.channel_last_published, channel_title := ci.channel_title } := by
                      injection hok with h2
                      exact h2.symm
                    subst hep
                    refine ⟨?_, ?_, ?_, ?_, ?_, ?_, hchan.1, hchan.2.1, hchan.2.2.1, hchan.2.2.2⟩
                    · intro hm
                      simp only [getStrD, hm] at hx2
                      injection hx2 with h2
                      exact h2.symm
                    · intro hm
                      simp only [getStrD, hm] at hx3
                      injection hx3 with h2
                      exact h2.symm
                    · intro hm
                      simp only [getStrD, hm] at hx4
                      injection hx4 with h2
                      exact h2.symm
                    · intro hm hov
                      simp only [getIntD, hm] at hx1
                      injection hx1 with h2
                      show (if rss.override_episode_numbers then (data.entries.length : Int) else x1) = 0
                      rw [hov, if_neg (by simp), ← h2]
                    · intro hm
                      simp only [getHrefD, hm] at hx5
                      injection hx5 with h2
                      exact h2.symm
                    · intro hm
                      simp only [getTermsD, hm] at hx6
                      injection hx6 with h2
                      exact h2.symm

/-- The all-missing feedparser document with a single empty entry. -/
def emptyDoc : RssDoc :=
  { feed := fun _ => none, entries := [fun _ => none] }

/-- The snapshot the extractor produces on `emptyDoc`. -/
def emptyEp : EpisodeData :=
  { number := 0, title := "None", episode_url := "None", description := "None",
    image_url := "", tags := [], channel_title := "", channel_url := "",
    channel_image_url := "", channel_last_published := "" }

/-- Claim C7 counterexample: on a document whose single entry and whose
channel metadata have no fields at all, extraction succeeds but the
missing channel title (a string field) yields the empty string, not the
"None" default the claim asserts for every missing string field. -/
theorem extraction_channel_default_counterexample :
    _get_latest_episode_data (sampleFeed 0 0) emptyDoc = .ok emptyEp ∧
    emptyEp.channel_title = "" ∧ ("" : String) ≠ "None" := by
  refine ⟨?_, rfl, by decide⟩
  rfl

/-- Witness for C7 (amended), instantiated on the all-missing document:
extraction succeeds and the entry title gets "None" while the channel
title gets the empty string. -/
theorem extraction_defaults_witness :
    emptyEp.title = "None" ∧ emptyEp.channel_title = "" :=
  have h := (extraction_defaults (sampleFeed 0 0) emptyDoc).2 emptyEp (by rfl) (fun _ => none) rfl
  ⟨h.1 rfl, h.2.2.2.2.2.2.1 rfl⟩

/-- Claim C8, evaluated on the code: the first half of the claim holds
in RssWatcher.__init__ — with the startup check enabled, a feed whose
document has zero entries makes the fetch raise IndexError, which
propagates out of the constructor and is fatal — but the second half
fails: on_ready (discordbot.py line 26) calls check_rss without its
required rss argument, so it raises TypeError for every possible fetch
outcome, the except clause re-raises, and check_rss_feed.start() on
line 30 is never reached: the periodic poll loop is never started, not
even when every feed yields episode data. -/
theorem on_ready_never_starts_loop :
    rssWatcherStartupCheck { fetch := fun _ => .error .indexError, publish := fun _ => .ok () } 0 [sampleFeed 0 0] = .error .indexError ∧
    (∀ fetched : Except PyErr EpisodeData, on_ready fetched = .error .typeError) ∧
    (∀ fetched : Except PyErr EpisodeData, on_ready fetched ≠ .ok true) :=
  ⟨rfl, fun _ => rfl, fun _ hc => Except.noConfusion hc⟩

end Threadslapper
